import Mathlib

/-!
Verification of the low-power sleep-mode entry controller of the
`stm32f1xx-hal` fork (`src/sleep.rs`).

The controller is embedded shallowly: every hardware side effect of the
Rust code (a register field written, an NVIC vector enabled or unpended,
an RTC operation, the final wait instruction) is recorded as an `Event`
in a trace, in the exact order the source performs it.  The builder's
internal state (`sleep_mode`, `sleep_mode_entry`, the stored RTC handle
and alarm duration) is carried explicitly.  A small register-state view
(`RegState`) folds a trace into the final values of the mode-control
bits, used for the bit-table properties.
-/

namespace StmSleep

/-- Sleep modes, in descending order of power usage (`src/sleep.rs`). -/
inductive SleepMode
  | Sleep
  | StopRegulatorOn
  | StopRegulatorLP
  | Standby
deriving DecidableEq, Repr

/-- How the MCU enters sleep: wait-for-interrupt or wait-for-event. -/
inductive SleepModeEntry
  | WFI
  | WFE
deriving DecidableEq, Repr

/-- The interrupt vectors the controller touches (`pac::Interrupt` imports). -/
inductive IrqVector
  | RTC
  | RTCALARM
  | EXTI0
deriving DecidableEq, Repr

/-- One observable hardware effect performed by the controller, at the
granularity of a register-field write (or NVIC/RTC operation, or the
final wait instruction). -/
inductive Event
  | scbSetSleepDeep
  | scbClearSleepDeep
  | pwrPddsSet
  | pwrPddsClear
  | pwrLpdsSet
  | pwrLpdsClear
  | pwrCsbfSet
  | pwrCwufSet
  | pwrEwupSet
  | apb1SetPwren
  | nvicEnable (v : IrqVector)
  | nvicUnpend (v : IrqVector)
  | extiImrSet (line : Nat)
  | extiEmrSet (line : Nat)
  | extiRtsrSet (line : Nat)
  | extiPrSet (line : Nat)
  | dbgSleepSet
  | dbgStopSet
  | dbgStandbySet
  | rtcReadSeconds
  | rtcClearAlarmFlag
  | rtcSetAlarm (v : Nat)
  | wfi
  | wfe
deriving DecidableEq, Repr

/-- Model of the RTC handle: its current seconds counter (a `u32`,
modelled as a `Nat`; arithmetic on it is taken modulo `2 ^ 32`). -/
structure Rtc where
  secs : Nat
deriving DecidableEq, Repr

/-- The builder's fields (`struct SleepModeBuilder` in `src/sleep.rs`).
The `scb` and `pwr` handles carry no model state; the RTC handle and
alarm duration are stored as in the source. -/
structure SleepModeBuilder where
  sleep_mode : SleepMode
  sleep_mode_entry : SleepModeEntry
  rtc : Option Rtc
  wakeup_alarm : Option Nat
deriving DecidableEq, Repr

/-- `SleepModeBuilder::is_sleep_or_stop_mode`: true for `Sleep`,
`StopRegulatorOn`, `StopRegulatorLP`; false otherwise. -/
def SleepModeBuilder.is_sleep_or_stop_mode (b : SleepModeBuilder) : Bool :=
  match b.sleep_mode with
  | SleepMode.Sleep => true
  | SleepMode.StopRegulatorOn => true
  | SleepMode.StopRegulatorLP => true
  | SleepMode.Standby => false

/-- `SleepModeBuilder::new`: writes SLEEPDEEP per mode, then PDDS/LPDS
per mode, then clears the standby flag if set and the wakeup flag if
set.  The flag inputs `sbf` and `wuf` are the values read from
`pwr.csr`.  Returns the constructed builder and the trace of writes, in
source order. -/
def SleepModeBuilder.new (sleep_mode : SleepMode) (sleep_mode_entry : SleepModeEntry)
    (sbf wuf : Bool) : SleepModeBuilder × List Event :=
  let t1 : List Event :=
    match sleep_mode with
    | SleepMode.Sleep => [Event.scbClearSleepDeep]
    | SleepMode.StopRegulatorOn => [Event.scbSetSleepDeep]
    | SleepMode.StopRegulatorLP => [Event.scbSetSleepDeep]
    | SleepMode.Standby => [Event.scbSetSleepDeep]
  let t2 : List Event :=
    match sleep_mode with
    | SleepMode.Sleep => [Event.pwrPddsClear]
    | SleepMode.StopRegulatorOn => [Event.pwrPddsClear, Event.pwrLpdsClear]
    | SleepMode.StopRegulatorLP => [Event.pwrPddsClear, Event.pwrLpdsSet]
    | SleepMode.Standby => [Event.pwrPddsSet]
  let t3 : List Event := if sbf then [Event.pwrCsbfSet] else []
  let t4 : List Event := if wuf then [Event.pwrCwufSet] else []
  ({ sleep_mode := sleep_mode, sleep_mode_entry := sleep_mode_entry,
     rtc := none, wakeup_alarm := none },
   t1 ++ t2 ++ t3 ++ t4)

/-- `SleepModeBuilder::enable_wakeup_alarm`: stores the requested alarm
duration and RTC handle; if the mode is a sleep-or-stop mode, enables
and unpends the RTC and RTCALARM vectors, sets the line-17 mask bit in
IMR (WFI) or EMR (WFE), sets the line-17 rising-edge trigger, and
clears the line-17 pending bit. -/
def SleepModeBuilder.enable_wakeup_alarm (self : SleepModeBuilder)
    (secs : Nat) (rtc : Rtc) : SleepModeBuilder × List Event :=
  let self := { self with wakeup_alarm := some secs, rtc := some rtc }
  let t : List Event :=
    if self.is_sleep_or_stop_mode then
      [Event.nvicEnable IrqVector.RTC, Event.nvicUnpend IrqVector.RTC,
       Event.nvicEnable IrqVector.RTCALARM, Event.nvicUnpend IrqVector.RTCALARM]
      ++ (match self.sleep_mode_entry with
          | SleepModeEntry.WFI => [Event.extiImrSet 17]
          | SleepModeEntry.WFE => [Event.extiEmrSet 17])
      ++ [Event.extiRtsrSet 17, Event.extiPrSet 17]
    else []
  (self, t)

/-- `SleepModeBuilder::enable_wakeup_pin`: enables the power-interface
bus clock, sets the WKUP-pin enable bit, then — only in a sleep-or-stop
mode — enables and unpends EXTI0, sets the line-0 mask bit in IMR (WFI)
or EMR (WFE), sets the line-0 rising-edge trigger, and clears the
line-0 pending bit. -/
def SleepModeBuilder.enable_wakeup_pin (self : SleepModeBuilder) :
    SleepModeBuilder × List Event :=
  let t0 : List Event := [Event.apb1SetPwren, Event.pwrEwupSet]
  let t1 : List Event :=
    if self.is_sleep_or_stop_mode then
      [Event.nvicEnable IrqVector.EXTI0, Event.nvicUnpend IrqVector.EXTI0]
      ++ (match self.sleep_mode_entry with
          | SleepModeEntry.WFI => [Event.extiImrSet 0]
          | SleepModeEntry.WFE => [Event.extiEmrSet 0])
      ++ [Event.extiRtsrSet 0, Event.extiPrSet 0]
    else []
  (self, t0 ++ t1)

/-- `SleepModeBuilder::enable_debug`: sets the three DBGMCU retention
bits (sleep, stop, standby) in one register modify. -/
def SleepModeBuilder.enable_debug (self : SleepModeBuilder) :
    SleepModeBuilder × List Event :=
  (self, [Event.dbgSleepSet, Event.dbgStopSet, Event.dbgStandbySet])

/-- `SleepModeBuilder::enter`: if an alarm duration and an RTC handle
were stored, reads the current seconds, clears the RTC alarm flag and
programs the alarm to `now + secs` (u32 arithmetic); then issues WFI or
WFE per the stored entry kind. -/
def SleepModeBuilder.enter (self : SleepModeBuilder) : List Event :=
  (match self.wakeup_alarm, self.rtc with
   | some secs, some rtc =>
     [Event.rtcReadSeconds, Event.rtcClearAlarmFlag,
      Event.rtcSetAlarm ((rtc.secs + secs) % 2 ^ 32)]
   | some _, none => []
   | none, _ => [])
  ++ (match self.sleep_mode_entry with
      | SleepModeEntry.WFI => [Event.wfi]
      | SleepModeEntry.WFE => [Event.wfe])

/-- The canonical builder chain: construct, then optionally enable the
RTC alarm, then optionally enable the pin wake, then optionally enable
debug retention, then enter.  Returns the concatenated trace. -/
def builderChainTrace (mode : SleepMode) (entry : SleepModeEntry)
    (alarm : Option (Nat × Rtc)) (pin dbg : Bool) (sbf wuf : Bool) : List Event :=
  let p0 := SleepModeBuilder.new mode entry sbf wuf
  let p1 :=
    match alarm with
    | some sr => (p0.1).enable_wakeup_alarm sr.1 sr.2
    | none => (p0.1, [])
  let p2 := if pin then (p1.1).enable_wakeup_pin else (p1.1, [])
  let p3 := if dbg then (p2.1).enable_debug else (p2.1, [])
  p0.2 ++ p1.2 ++ p2.2 ++ p3.2 ++ (p3.1).enter

/-- Modelled from the spec: `enter_sleep_mode`, the monolithic one-shot
entry point of the crate's `sleep` module.  Its body is not among the
provided sources (only its call site in `examples/sleep.rs` is), so it
is modelled from spec section 4.1: steps 1-3 as in the builder
constructor, step 4 the RTC-alarm wiring gated by the is-sleep-or-stop
predicate (the caller pre-programs the alarm compare value, so no RTC
operation happens here), step 5 the pin-wake arming, step 6 the debug
retention bits, step 7 the wait instruction. -/
def enter_sleep_mode (mode : SleepMode) (entry : SleepModeEntry)
    (alarm pin dbg : Bool) (sbf wuf : Bool) : List Event :=
  let sleepOrStop : Bool :=
    match mode with
    | SleepMode.Sleep => true
    | SleepMode.StopRegulatorOn => true
    | SleepMode.StopRegulatorLP => true
    | SleepMode.Standby => false
  (match mode with
   | SleepMode.Sleep => [Event.scbClearSleepDeep]
   | SleepMode.StopRegulatorOn => [Event.scbSetSleepDeep]
   | SleepMode.StopRegulatorLP => [Event.scbSetSleepDeep]
   | SleepMode.Standby => [Event.scbSetSleepDeep])
  ++ (match mode with
      | SleepMode.Sleep => [Event.pwrPddsClear]
      | SleepMode.StopRegulatorOn => [Event.pwrPddsClear, Event.pwrLpdsClear]
      | SleepMode.StopRegulatorLP => [Event.pwrPddsClear, Event.pwrLpdsSet]
      | SleepMode.Standby => [Event.pwrPddsSet])
  ++ (if sbf then [Event.pwrCsbfSet] else [])
  ++ (if wuf then [Event.pwrCwufSet] else [])
  ++ (if alarm && sleepOrStop then
        [Event.nvicEnable IrqVector.RTC, Event.nvicUnpend IrqVector.RTC,
         Event.nvicEnable IrqVector.RTCALARM, Event.nvicUnpend IrqVector.RTCALARM]
        ++ (match entry with
            | SleepModeEntry.WFI => [Event.extiImrSet 17]
            | SleepModeEntry.WFE => [Event.extiEmrSet 17])
        ++ [Event.extiRtsrSet 17, Event.extiPrSet 17]
      else [])
  ++ (if pin then
        [Event.apb1SetPwren, Event.pwrEwupSet]
        ++ (if sleepOrStop then
              [Event.nvicEnable IrqVector.EXTI0, Event.nvicUnpend IrqVector.EXTI0]
              ++ (match entry with
                  | SleepModeEntry.WFI => [Event.extiImrSet 0]
                  | SleepModeEntry.WFE => [Event.extiEmrSet 0])
              ++ [Event.extiRtsrSet 0, Event.extiPrSet 0]
            else [])
      else [])
  ++ (if dbg then [Event.dbgSleepSet, Event.dbgStopSet, Event.dbgStandbySet] else [])
  ++ (match entry with
      | SleepModeEntry.WFI => [Event.wfi]
      | SleepModeEntry.WFE => [Event.wfe])

/-- Classifies the events that arm a wake source: NVIC operations, EXTI
mask/trigger/pending writes, the WKUP-pin enable, the bus-clock enable
done for it, and the RTC alarm-programming writes. -/
def Event.isWakeArming : Event → Bool
  | Event.nvicEnable _ => true
  | Event.nvicUnpend _ => true
  | Event.extiImrSet _ => true
  | Event.extiEmrSet _ => true
  | Event.extiRtsrSet _ => true
  | Event.extiPrSet _ => true
  | Event.pwrEwupSet => true
  | Event.apb1SetPwren => true
  | Event.rtcClearAlarmFlag => true
  | Event.rtcSetAlarm _ => true
  | _ => false

/-- Classifies RTC operations (the documented divergence between the
builder form and the monolithic form). -/
def Event.isRtcOp : Event → Bool
  | Event.rtcReadSeconds => true
  | Event.rtcClearAlarmFlag => true
  | Event.rtcSetAlarm _ => true
  | _ => false

/-- Classifies writes to the three DBGMCU retention bits. -/
def Event.isDebugWrite : Event → Bool
  | Event.dbgSleepSet => true
  | Event.dbgStopSet => true
  | Event.dbgStandbySet => true
  | _ => false

/-- Register-state view: the mode-control bits and the residue flags a
trace acts on.  Events not touching these fields leave them unchanged. -/
structure RegState where
  sleepdeep : Bool
  pdds : Bool
  lpds : Bool
  ewup : Bool
  sbf : Bool
  wuf : Bool
deriving DecidableEq, Repr

/-- Effect of one event on the register-state view.  Writing the CSBF
or CWUF clear bit clears the corresponding residue flag. -/
def applyEvent (s : RegState) : Event → RegState
  | Event.scbSetSleepDeep => { s with sleepdeep := true }
  | Event.scbClearSleepDeep => { s with sleepdeep := false }
  | Event.pwrPddsSet => { s with pdds := true }
  | Event.pwrPddsClear => { s with pdds := false }
  | Event.pwrLpdsSet => { s with lpds := true }
  | Event.pwrLpdsClear => { s with lpds := false }
  | Event.pwrCsbfSet => { s with sbf := false }
  | Event.pwrCwufSet => { s with wuf := false }
  | Event.pwrEwupSet => { s with ewup := true }
  | _ => s

/-- Fold a trace over the register-state view. -/
def runTrace (s : RegState) (t : List Event) : RegState :=
  t.foldl applyEvent s

/-- Claim C1: for every `SleepMode`, the constructor's writes leave the three
mode-control bits per the spec table — deep-sleep clear exactly for
`Sleep`, power-down set exactly for `Standby`, low-power-regulator
cleared for `StopRegulatorOn` and set for `StopRegulatorLP` (and not
written for the other two modes) — and the derived `is_sleep_or_stop`
predicate holds exactly for the three non-`Standby` modes. -/
theorem new_mode_bits_table (mode : SleepMode) (entry : SleepModeEntry)
    (sbf wuf : Bool) (s0 : RegState) :
    let p := SleepModeBuilder.new mode entry sbf wuf
    let s := runTrace s0 p.2
    s.sleepdeep = (match mode with
      | SleepMode.Sleep => false
      | _ => true)
    ∧ s.pdds = (match mode with
      | SleepMode.Standby => true
      | _ => false)
    ∧ s.lpds = (match mode with
      | SleepMode.StopRegulatorOn => false
      | SleepMode.StopRegulatorLP => true
      | _ => s0.lpds)
    ∧ (p.1).is_sleep_or_stop_mode = (match mode with
      | SleepMode.Standby => false
      | _ => true) := by
  cases mode <;> cases sbf <;> cases wuf <;>
    simp [SleepModeBuilder.new, SleepModeBuilder.is_sleep_or_stop_mode,
      runTrace, applyEvent]

/-- Claim C2: for every mode (and, for the three sleep-or-stop modes, exactly
as the claim lists them), `enable_wakeup_alarm` performs exactly these
register effects in order: enable and unpend the RTC and RTCALARM
vectors, set the line-17 mask bit in IMR for WFI or EMR for WFE, set
the line-17 rising-edge trigger, clear the line-17 pending bit — and
nothing else; at `Standby` it performs none of them. -/
theorem enable_wakeup_alarm_effects (mode : SleepMode) (entry : SleepModeEntry)
    (secs : Nat) (rtc : Rtc) (sbf wuf : Bool) :
    ((SleepModeBuilder.new mode entry sbf wuf).1.enable_wakeup_alarm secs rtc).2
      = (match mode with
         | SleepMode.Standby => []
         | _ =>
           [Event.nvicEnable IrqVector.RTC, Event.nvicUnpend IrqVector.RTC,
            Event.nvicEnable IrqVector.RTCALARM, Event.nvicUnpend IrqVector.RTCALARM]
           ++ (match entry with
               | SleepModeEntry.WFI => [Event.extiImrSet 17]
               | SleepModeEntry.WFE => [Event.extiEmrSet 17])
           ++ [Event.extiRtsrSet 17, Event.extiPrSet 17]) := by
  cases mode <;> cases entry <;>
    simp [SleepModeBuilder.new, SleepModeBuilder.enable_wakeup_alarm,
      SleepModeBuilder.is_sleep_or_stop_mode]

/-- Claim C3: when the standby-exit flag and the generic wakeup flag are both
set at construction, both clearing writes occur before any wake-source
arming write in the full builder-chain trace, for every mode, entry,
and wake-source/debug configuration: both `pwrCsbfSet` and `pwrCwufSet`
lie in the longest arming-free front of the trace.  This holds because
the constructor performs the flag clears and the wake-source methods
can only run on the constructed value. -/
theorem residue_flags_cleared_before_arming (mode : SleepMode)
    (entry : SleepModeEntry) (alarm : Option (Nat × Rtc)) (pin dbg : Bool) :
    let t := builderChainTrace mode entry alarm pin dbg true true
    let front := t.takeWhile (fun e => !e.isWakeArming)
    Event.pwrCsbfSet ∈ front ∧ Event.pwrCwufSet ∈ front := by
  cases mode <;> cases entry <;>
    rcases alarm with _ | ⟨secs, rtc⟩ <;> cases pin <;> cases dbg <;>
    simp [builderChainTrace, SleepModeBuilder.new,
      SleepModeBuilder.enable_wakeup_alarm, SleepModeBuilder.enable_wakeup_pin,
      SleepModeBuilder.enable_debug, SleepModeBuilder.enter,
      SleepModeBuilder.is_sleep_or_stop_mode, Event.isWakeArming,
      List.takeWhile]

/-- Claim C4, counterexample: at `Standby`, `enable_wakeup_alarm` performs no
register write at all — in particular it sets no always-on enable bit
for the RTC alarm, contradicting the claim that enabling RTC-alarm wake
at `Standby` "sets the respective always-on enable bit". -/
theorem standby_alarm_writes_nothing :
    ((SleepModeBuilder.new SleepMode.Standby SleepModeEntry.WFI false false).1.enable_wakeup_alarm
      10 ⟨0⟩).2 = [] := by
  rfl

/-- Claim C4, amended: at `Standby`, enabling pin wake writes exactly the
bus-clock enable followed by the pin-wake-enable bit, and enabling
RTC-alarm wake writes no register at all (the alarm itself is
programmed later by `enter`); in particular neither method performs any
NVIC enable/unpend or any EXTI mask, rising-edge-trigger, or pending
write at `Standby`. -/
theorem standby_wake_sources_skip_nvic_exti (entry : SleepModeEntry)
    (secs : Nat) (rtc : Rtc) (sbf wuf : Bool) :
    ((SleepModeBuilder.new SleepMode.Standby entry sbf wuf).1.enable_wakeup_alarm
      secs rtc).2 = []
    ∧ ((SleepModeBuilder.new SleepMode.Standby entry sbf wuf).1.enable_wakeup_pin).2
      = [Event.apb1SetPwren, Event.pwrEwupSet] := by
  cases entry <;> exact ⟨rfl, rfl⟩

/-- Claim C6: for every mode and entry, `enable_wakeup_pin` first enables the
power-interface bus clock and then sets the pin-wake-enable bit,
unconditionally (including at `Standby`); the NVIC/EXTI wiring for
external line 0 (EXTI0 enable+unpend, the mask bit in IMR for WFI or
EMR for WFE, the rising-edge trigger, the pending-clear) follows
exactly when the mode is a sleep-or-stop mode. -/
theorem enable_wakeup_pin_effects (mode : SleepMode) (entry : SleepModeEntry)
    (sbf wuf : Bool) :
    ((SleepModeBuilder.new mode entry sbf wuf).1.enable_wakeup_pin).2
      = [Event.apb1SetPwren, Event.pwrEwupSet]
        ++ (match mode with
            | SleepMode.Standby => []
            | _ =>
              [Event.nvicEnable IrqVector.EXTI0, Event.nvicUnpend IrqVector.EXTI0]
              ++ (match entry with
                  | SleepModeEntry.WFI => [Event.extiImrSet 0]
                  | SleepModeEntry.WFE => [Event.extiEmrSet 0])
              ++ [Event.extiRtsrSet 0, Event.extiPrSet 0]) := by
  cases mode <;> cases entry <;> rfl

/-- Claim C7: after an alarm of `secs` seconds was requested, `enter` reads
the RTC seconds counter, clears the alarm flag, programs the alarm
compare value to the current seconds plus the requested offset (u32
arithmetic), and issues the wait instruction immediately after — WFI
when the entry kind is WFI and WFE when it is WFE. -/
theorem enter_programs_alarm_then_waits (mode : SleepMode)
    (entry : SleepModeEntry) (secs : Nat) (rtc : Rtc) (sbf wuf : Bool) :
    (((SleepModeBuilder.new mode entry sbf wuf).1.enable_wakeup_alarm
        secs rtc).1).enter
      = [Event.rtcReadSeconds, Event.rtcClearAlarmFlag,
         Event.rtcSetAlarm ((rtc.secs + secs) % 2 ^ 32)]
        ++ (match entry with
            | SleepModeEntry.WFI => [Event.wfi]
            | SleepModeEntry.WFE => [Event.wfe]) := by
  cases mode <;> cases entry <;> rfl

/-- Claim C8: `enable_debug` writes exactly the three debug-retention bits
(sleep, stop, standby), for every mode and entry; and if debug
retention is never requested, no operation of the whole builder chain
writes any of the three bits, for any mode, entry, and wake-source
configuration. -/
theorem debug_retention_bits (mode : SleepMode) (entry : SleepModeEntry)
    (alarm : Option (Nat × Rtc)) (pin : Bool) (sbf wuf : Bool) :
    ((SleepModeBuilder.new mode entry sbf wuf).1.enable_debug).2
      = [Event.dbgSleepSet, Event.dbgStopSet, Event.dbgStandbySet]
    ∧ (builderChainTrace mode entry alarm pin false sbf wuf).all
        (fun e => !e.isDebugWrite) = true := by
  cases mode <;> cases entry <;>
    rcases alarm with _ | ⟨secs, rtc⟩ <;> cases pin <;> cases sbf <;> cases wuf <;>
    simp [builderChainTrace, SleepModeBuilder.new,
      SleepModeBuilder.enable_wakeup_alarm, SleepModeBuilder.enable_wakeup_pin,
      SleepModeBuilder.enable_debug, SleepModeBuilder.enter,
      SleepModeBuilder.is_sleep_or_stop_mode, Event.isDebugWrite]

/-- Claim C9: if `enable_wakeup_alarm` is never called (so the stored alarm
duration stays `none`), `enter` performs no RTC operation and no
register write at all: its trace is exactly the single wait
instruction, whichever of the optional pin and debug steps ran. -/
theorem enter_without_alarm_only_waits (mode : SleepMode)
    (entry : SleepModeEntry) (pin dbg : Bool) (sbf wuf : Bool) :
    let b0 := (SleepModeBuilder.new mode entry sbf wuf).1
    let b1 := if pin then (b0.enable_wakeup_pin).1 else b0
    let b2 := if dbg then (b1.enable_debug).1 else b1
    b2.enter = (match entry with
                | SleepModeEntry.WFI => [Event.wfi]
                | SleepModeEntry.WFE => [Event.wfe]) := by
  cases mode <;> cases entry <;> cases pin <;> cases dbg <;> rfl

/-- Claim C10: when an alarm was requested, the last four events of the full
builder-chain trace are, in order: read the RTC seconds counter, clear
the RTC alarm flag, program the new alarm compare value, issue the wait
instruction — so the flag clear happens after the read and before the
alarm programming, and every RTC operation completes before the wait. -/
theorem alarm_rtc_ops_ordered (mode : SleepMode) (entry : SleepModeEntry)
    (secs : Nat) (rtc : Rtc) (pin dbg : Bool) (sbf wuf : Bool) :
    let t := builderChainTrace mode entry (some (secs, rtc)) pin dbg sbf wuf
    t.drop (t.length - 4)
      = [Event.rtcReadSeconds, Event.rtcClearAlarmFlag,
         Event.rtcSetAlarm ((rtc.secs + secs) % 2 ^ 32),
         match entry with
         | SleepModeEntry.WFI => Event.wfi
         | SleepModeEntry.WFE => Event.wfe] := by
  cases mode <;> cases entry <;> cases pin <;> cases dbg <;>
    cases sbf <;> cases wuf <;> rfl

/-- Claim C5: for identical inputs (mode, entry, each wake source on or off,
debug flag, residue-flag state), the builder chain and the monolithic
`enter_sleep_mode` produce identical register-write traces, except that
the builder form additionally performs the RTC alarm programming
(read seconds, clear alarm flag, set compare value) internally: with
those RTC operations filtered out, the two traces are equal — and when
no alarm is requested neither form performs any RTC operation, so the
full traces are equal. -/
theorem builder_equals_monolithic (mode : SleepMode) (entry : SleepModeEntry)
    (secs : Nat) (rtc : Rtc) (pin dbg : Bool) (sbf wuf : Bool) :
    ((builderChainTrace mode entry (some (secs, rtc)) pin dbg sbf wuf).filter
        (fun e => !e.isRtcOp)
      = enter_sleep_mode mode entry true pin dbg sbf wuf)
    ∧ builderChainTrace mode entry none pin dbg sbf wuf
      = enter_sleep_mode mode entry false pin dbg sbf wuf := by
  cases mode <;> cases entry <;> cases pin <;> cases dbg <;>
    cases sbf <;> cases wuf <;> exact ⟨rfl, rfl⟩

end StmSleep
